import Mathlib

/-! Contact check-in bot: Scheduler and Callback Handler.

A shallow embedding of `scripts/weekly-checkin.js` (the Scheduler) and
`scripts/button-handler.js` (the Callback Handler), followed by theorems about
the callback encoding, the due-date classification and the handler protocol.

JavaScript strings are modelled as lists of characters.  Every string
operation used by the two scripts (`trim`, `replace`, `===`) acts on single
characters of the Basic Multilingual Plane, so the list model agrees with the
UTF-16 behaviour on well-formed strings.  Numbers that the scripts compute
(day counts, frequencies, row numbers) are exact integers; this agrees with
double arithmetic as long as the values stay below 2^53.
-/

namespace CheckinBot

/-! ## Strings -/

/-- A JavaScript string. -/
abbrev JsString := List Char

/-- The characters matched by the regular expression class `\s`, which are
also the characters removed by `String.prototype.trim` (WhiteSpace and
LineTerminator of ECMAScript). -/
def isJsWhiteSpace (c : Char) : Bool :=
  let n := c.toNat
  (9 ≤ n && n ≤ 13) || n == 32 || n == 160 || n == 5760 ||
  (8192 ≤ n && n ≤ 8202) || n == 8232 || n == 8233 || n == 8239 ||
  n == 8287 || n == 12288 || n == 65279

/-- `s.trim()`: white space removed from both ends. -/
def jsTrim (s : JsString) : JsString :=
  (s.dropWhile isJsWhiteSpace).rdropWhile isJsWhiteSpace

/-- `s.replace(/\s+/g, '_')`, scanning left to right; `inRun` records that the
previous character belonged to a white-space run that has already produced its
underscore. -/
def replaceWsAux (inRun : Bool) : JsString → JsString
  | [] => []
  | c :: cs =>
    if isJsWhiteSpace c then
      if inRun then replaceWsAux true cs else '_' :: replaceWsAux true cs
    else c :: replaceWsAux false cs

/-- `s.replace(/\s+/g, '_')`: every maximal run of white space becomes one
underscore. -/
def replaceWhitespaceRuns (s : JsString) : JsString := replaceWsAux false s

/-- `s.replace(pat, '')` with a string pattern: the first occurrence of `pat`
is removed, wherever it stands; a string without occurrence is unchanged. -/
def removeFirst (pat : JsString) : JsString → JsString
  | [] => []
  | c :: cs =>
    if pat.isPrefixOf (c :: cs) then (c :: cs).drop pat.length
    else c :: removeFirst pat cs

/-- `s.replace(/_/g, ' ')`. -/
def underscoresToSpaces (s : JsString) : JsString :=
  s.map (fun c => if c = '_' then ' ' else c)

/-! ## Callback encoding -/

/-- The literal `'contact_'`. -/
def contactPrefix : JsString := "contact_".toList

/-- The literal `'contact_none'`, payload of the "None Recently" button. -/
def contactNone : JsString := "contact_none".toList

/-- The `callback_data` of a due contact's button (weekly-checkin.js, line 85):
`contact_` followed by the contact's name with white-space runs replaced. -/
def callbackData (name : JsString) : JsString :=
  contactPrefix ++ replaceWhitespaceRuns name

/-- The Scheduler's encoding of a roster name: the name cell is trimmed when
the row is read (line 39) and the button payload is built from the trimmed
name (line 85). -/
def encode (name : JsString) : JsString := callbackData (jsTrim name)

/-- The contact name the Callback Handler extracts from a payload
(button-handler.js, line 117). -/
def contactNameOf (data : JsString) : JsString :=
  underscoresToSpaces (removeFirst contactPrefix data)

/-- What a payload stands for in the Callback Handler. -/
inductive Decoded where
  | sentinel
  | contact (name : JsString)
  deriving DecidableEq

/-- The Callback Handler's treatment of a payload: the `contact_none` check of
line 105, then the name extraction of line 117. -/
def decode (data : JsString) : Decoded :=
  if data = contactNone then Decoded.sentinel else Decoded.contact (contactNameOf data)

/-- The replacement the Scheduler performs on a name whose white space is made
of isolated ordinary spaces. -/
def spaceToUnderscore (c : Char) : Char := if c = ' ' then '_' else c

/-! ## Numbers and dates -/

/-- Value of a character as a digit: `0`-`9`, then letters from ten on. -/
def digitValue (c : Char) : Option Nat :=
  if '0' ≤ c ∧ c ≤ '9' then some (c.toNat - 48)
  else if 'a' ≤ c ∧ c ≤ 'z' then some (c.toNat - 87)
  else if 'A' ≤ c ∧ c ≤ 'Z' then some (c.toNat - 55)
  else none

/-- The values of the longest run of radix digits at the start of a string. -/
def leadingDigits (radix : Nat) : JsString → List Nat
  | [] => []
  | c :: cs =>
    match digitValue c with
    | some d => if d < radix then d :: leadingDigits radix cs else []
    | none => []

/-- Number written by a digit list, most significant digit first. -/
def digitsValue (radix : Nat) (ds : List Nat) : Nat :=
  ds.foldl (fun acc d => acc * radix + d) 0

/-- `parseInt(s)` without radix argument (ECMAScript 19.2.5): leading white
space is dropped, a sign is read, a `0x`/`0X` mark selects radix 16, then the
longest digit run is read and whatever follows is ignored.  `none` is `NaN`. -/
def jsParseInt (s : JsString) : Option Int :=
  let s1 := s.dropWhile isJsWhiteSpace
  let signed : Bool × JsString :=
    match s1 with
    | '-' :: r => (true, r)
    | '+' :: r => (false, r)
    | _ => (false, s1)
  let based : Nat × JsString :=
    match signed.2 with
    | '0' :: 'x' :: r => (16, r)
    | '0' :: 'X' :: r => (16, r)
    | _ => (10, signed.2)
  let ds := leadingDigits based.1 based.2
  if ds = [] then none
  else if signed.1 then some (-(digitsValue based.1 ds : Int))
  else some (digitsValue based.1 ds : Int)

/-- Days between 1970-01-01 and a date of the proleptic Gregorian calendar. -/
def daysFromCivil (y m d : Nat) : Int :=
  let y1 : Int := if m ≤ 2 then (y : Int) - 1 else y
  let era : Int := y1 / 400
  let yoe : Int := y1 - era * 400
  let mp : Int := if m ≤ 2 then (m : Int) + 9 else (m : Int) - 3
  let doy : Int := (153 * mp + 2) / 5 + (d : Int) - 1
  let doe : Int := yoe * 365 + yoe / 4 - yoe / 100 + doy
  era * 146097 + doe - 719468

/-- Number of days of a month. -/
def daysInMonth (y m : Nat) : Nat :=
  if m = 2 then (if y % 4 = 0 ∧ (y % 100 ≠ 0 ∨ y % 400 = 0) then 29 else 28)
  else if m = 4 ∨ m = 6 ∨ m = 9 ∨ m = 11 then 30 else 31

/-- A decimal number written with exactly the given digits. -/
def decimalField (cs : JsString) : Option Nat :=
  if cs.all (fun c => decide ('0' ≤ c ∧ c ≤ '9')) then
    some (digitsValue 10 (cs.map (fun c => c.toNat - 48)))
  else none

/-- The time value, in milliseconds, of `new Date(s)` for a calendar date
written `YYYY-MM-DD` (the date-only form of the ECMAScript date-time string
format, read as midnight UTC).  This is the one format the Callback Handler
itself writes; every other string is left to the `parseDate` parameter of the
Scheduler and yields `none` here. -/
def isoDateMs (s : JsString) : Option Int :=
  match s with
  | [y1, y2, y3, y4, '-', m1, m2, '-', d1, d2] =>
    match decimalField [y1, y2, y3, y4], decimalField [m1, m2], decimalField [d1, d2] with
    | some y, some m, some d =>
      if 1 ≤ m ∧ m ≤ 12 ∧ 1 ≤ d ∧ d ≤ daysInMonth y m then
        some (daysFromCivil y m d * 86400000)
      else none
    | _, _, _ => none
  | _ => none

/-! ## Scheduler: due-date classification (weekly-checkin.js, lines 35-65) -/

/-- A roster row as the Contact Store returns it: the cells of columns A to E,
trailing empty cells left out. -/
abbrev Row := List JsString

/-- An entry of `contactsDue`. -/
structure DueContact where
  name : JsString
  type : JsString
  daysSinceContact : Int
  targetFrequency : Int
  overdueDays : Int
  deriving DecidableEq

/-- Milliseconds of a day, `1000 * 60 * 60 * 24`. -/
def msPerDay : Int := 1000 * 60 * 60 * 24

/-- The reminder buffer, `bufferDays`. -/
def bufferDays : Int := 3

/-- The cell `row[i]?.toString().trim()`; `none` is `undefined`. -/
def trimmedCell (row : Row) (i : Nat) : Option JsString :=
  (row.get? i).map jsTrim

/-- The body of the classification loop for one row: `none` when the row is
skipped by one of the `continue` statements or is not due, the pushed entry
otherwise.  `parseDate s` is the time value of `new Date(s)` (`none` for an
invalid date), `today` the time value of the run.  The integer quotient by a
positive divisor is rounded down, which is the value of `Math.floor` of the
double quotient whenever the day count is below 2^27 in absolute value. -/
def classifyRow (parseDate : JsString → Option Int) (today : Int) (row : Row) :
    Option DueContact :=
  if row.length < 4 then none
  else
    match trimmedCell row 0, trimmedCell row 2, trimmedCell row 3 with
    | some name, some lastContactStr, some frequencyStr =>
      if name = [] ∨ lastContactStr = [] ∨ frequencyStr = [] then none
      else
        match parseDate lastContactStr, jsParseInt frequencyStr with
        | some lastContactDate, some targetFrequency =>
          let daysSinceContact := (today - lastContactDate) / msPerDay
          if daysSinceContact ≥ targetFrequency - bufferDays then
            some
              { name := name
                type :=
                  match trimmedCell row 1 with
                  | some (c :: cs) => c :: cs
                  | _ => "Contact".toList
                daysSinceContact := daysSinceContact
                targetFrequency := targetFrequency
                overdueDays := max 0 (daysSinceContact - targetFrequency) }
          else none
        | _, _ => none
    | _, _, _ => none

/-- The classification loop: rows are visited in order and due entries are
pushed at the end of `contactsDue`. -/
def contactsDueLoop (parseDate : JsString → Option Int) (today : Int) :
    List Row → List DueContact → List DueContact
  | [], acc => acc
  | row :: rest, acc =>
    match classifyRow parseDate today row with
    | some c => contactsDueLoop parseDate today rest (acc ++ [c])
    | none => contactsDueLoop parseDate today rest acc

/-- The array `contactsDue` after the loop. -/
def contactsDue (parseDate : JsString → Option Int) (today : Int) (rows : List Row) :
    List DueContact :=
  contactsDueLoop parseDate today rows []

/-! ## Scheduler: message, buttons and run (weekly-checkin.js, lines 67-118) -/

/-- A button of the inline keyboard. -/
structure Button where
  text : JsString
  callback_data : JsString
  deriving DecidableEq

/-- A number inside a template literal. -/
def jsNumber (n : Int) : JsString := (toString n).toList

/-- The status shown after a due contact. -/
def statusText (c : DueContact) : JsString :=
  if c.overdueDays > 0 then
    "(".toList ++ jsNumber c.overdueDays ++ " days overdue)".toList
  else
    "(due in ".toList ++ jsNumber (c.targetFrequency - c.daysSinceContact) ++ " days)".toList

/-- The line of the message for one due contact. -/
def contactLine (c : DueContact) : JsString :=
  "• ".toList ++ c.name ++ " - ".toList ++ c.type ++ " ".toList ++ statusText c ++ "\n".toList

/-- The button of one due contact. -/
def contactButton (c : DueContact) : Button :=
  { text := "✅ ".toList ++ c.name, callback_data := callbackData c.name }

/-- The "None Recently" button. -/
def noneButton : Button :=
  { text := "❌ None Recently".toList, callback_data := contactNone }

/-- The text of the check-in message. -/
def messageText (due : List DueContact) : JsString :=
  "🤝 **Weekly Connection Check-in**\n\n".toList ++
    (if due.length = 0 then "🎉 All contacts are up to date!".toList
     else "Have you spoken to any of these people recently?\n\n".toList ++
       (due.map contactLine).flatten)

/-- The rows of the inline keyboard, one button a row. -/
def inlineKeyboard (due : List DueContact) : List (List Button) :=
  if due.length = 0 then []
  else due.map (fun c => [contactButton c]) ++ [[noneButton]]

/-- What the Scheduler asks of its collaborators. -/
inductive SchedulerEffect where
  | getSpreadsheetValues (range : JsString)
  | sendMessage (text : JsString) (keyboard : List (List Button))
  deriving DecidableEq

/-- What the Scheduler's collaborators answer during one run: the response of
the Contact Store (an error message when the request is rejected, otherwise
the `values` field, which the store leaves out when the range is empty), the
time value of `new Date()`, the meaning of `new Date(s)`, and the outcome of
the send request (`some msg` when it is rejected with that message). -/
structure SchedulerEnv where
  getValues : Except JsString (Option (List Row))
  now : Int
  parseDate : JsString → Option Int
  sendMessage : Option JsString

/-- The value the Scheduler returns. -/
structure SchedulerResult where
  success : Bool
  contactsProcessed : Nat
  contactsDue : Nat
  messageSent : Bool
  deriving DecidableEq

/-- The Scheduler's `run`: the returned value, or the message of the error it
rethrows, together with the requests issued. -/
def schedulerRun (env : SchedulerEnv) : Except JsString SchedulerResult × List SchedulerEffect :=
  let read := SchedulerEffect.getSpreadsheetValues "A2:E100".toList
  match env.getValues with
  | Except.error e => (Except.error e, [read])
  | Except.ok values =>
    let rows := values.getD []
    let due := contactsDue env.parseDate env.now rows
    let send := SchedulerEffect.sendMessage (messageText due) (inlineKeyboard due)
    match env.sendMessage with
    | some e => (Except.error e, [read, send])
    | none =>
      (Except.ok
        { success := true
          contactsProcessed := rows.length
          contactsDue := due.length
          messageSent := true },
       [read, send])

/-! ## Callback Handler (button-handler.js) -/

/-- The fields of the inbound webhook body that the handler reads; `none` is
`undefined`, which is also what the optional chaining yields when the body or
its `callback_query` is missing. -/
structure CallbackEvent where
  data : Option JsString
  fromId : Option Int
  id : Option JsString
  deriving DecidableEq

/-- What the Callback Handler asks of its collaborators. -/
inductive Effect where
  | respond (status : Nat)
  | answerCallbackQuery (callbackQueryId text : JsString)
  | sendMessage (chatId : Int) (text : JsString)
  | getSpreadsheetValues (range : JsString)
  | putLastContact (row : Nat) (value : JsString)
  deriving DecidableEq

/-- What the collaborators answer during one run of the handler.  A request
outcome is `none` when the request is fulfilled and `some msg` when it is
rejected with an error of that message.  `sendMessage k` is the outcome of the
`k`-th chat message of the run, counted from zero; `getValues` is as in
`SchedulerEnv`; `today` is the value of
`new Date().toLocaleDateString('en-CA', ...)`. -/
structure HandlerEnv where
  answerCallbackQuery : Option JsString
  sendMessage : Nat → Option JsString
  getValues : Except JsString (Option (List Row))
  putValue : Option JsString
  today : JsString

/-- The value the handler returns; a field the returned object does not carry
is `none`. -/
structure HandlerResult where
  processed : Bool
  success : Bool
  message : Option JsString
  action : Option JsString
  contactName : Option JsString
  rowUpdated : Option Nat
  dateSet : Option JsString
  callbackId : Option JsString
  error : Option JsString
  deriving DecidableEq

/-- A step of the handler: from the requests issued so far to a value or the
message of a thrown error, and the requests issued by then. -/
def Proc (α : Type) : Type := List Effect → Except JsString α × List Effect

/-- A step that returns without issuing a request. -/
def Proc.pure {α : Type} (a : α) : Proc α := fun tr => (Except.ok a, tr)

/-- Sequencing: a thrown error skips the rest. -/
def Proc.bind {α β : Type} (m : Proc α) (f : α → Proc β) : Proc β := fun tr =>
  match m tr with
  | (Except.ok a, tr1) => f a tr1
  | (Except.error e, tr1) => (Except.error e, tr1)

instance : Monad Proc where
  pure := Proc.pure
  bind := Proc.bind

/-- The statement `throw new Error(msg)`. -/
def Proc.throw {α : Type} (msg : JsString) : Proc α := fun tr => (Except.error msg, tr)

/-- The statement `try ... catch (error) ...`; the handler receives
`error.message`. -/
def Proc.tryCatch {α : Type} (body : Proc α) (handler : JsString → Proc α) : Proc α := fun tr =>
  match body tr with
  | (Except.ok a, tr1) => (Except.ok a, tr1)
  | (Except.error e, tr1) => handler e tr1

/-- An awaited request with its outcome. -/
def request (e : Effect) (outcome : Option JsString) : Proc Unit := fun tr =>
  match outcome with
  | none => (Except.ok (), tr ++ [e])
  | some msg => (Except.error msg, tr ++ [e])

/-- Whether a request is a chat message. -/
def Effect.isSend : Effect → Bool
  | Effect.sendMessage _ _ => true
  | _ => false

/-- Whether a request writes to the Contact Store. -/
def Effect.isWrite : Effect → Bool
  | Effect.putLastContact _ _ => true
  | _ => false

/-- Whether a request reads the Contact Store. -/
def Effect.isRead : Effect → Bool
  | Effect.getSpreadsheetValues _ => true
  | _ => false

/-- The call `$.respond(...)` with status 200 (lines 22-32), which stands
before the `try` block; it is issued and returns. -/
def respond : Proc Unit := request (Effect.respond 200) none

/-- The function `answerCallbackQuery` (lines 39-49). -/
def answerCallbackQuery (env : HandlerEnv) (callbackQueryId text : JsString) : Proc Unit :=
  request (Effect.answerCallbackQuery callbackQueryId text) env.answerCallbackQuery

/-- The function `sendTelegramMessage` (lines 54-60). -/
def sendTelegramMessage (env : HandlerEnv) (chatId : Int) (text : JsString) : Proc Unit :=
  fun tr => request (Effect.sendMessage chatId text) (env.sendMessage (tr.countP Effect.isSend)) tr

/-- The call `this.googleSheets.getSpreadsheetValues(..., "A2:E100")`. -/
def getSpreadsheetValues (env : HandlerEnv) : Proc (Option (List Row)) := fun tr =>
  let tr1 := tr ++ [Effect.getSpreadsheetValues "A2:E100".toList]
  match env.getValues with
  | Except.ok values => (Except.ok values, tr1)
  | Except.error e => (Except.error e, tr1)

/-- The roster scan of lines 125-132, entered at index `i`: the sheet row
number of the first row whose trimmed name is `contactName`. -/
def findRow (contactName : JsString) : List Row → Nat → Option Nat
  | [], _ => none
  | row :: rest, i =>
    if trimmedCell row 0 = some contactName then some (i + 2)
    else findRow contactName rest (i + 1)

/-- The object returned for an event without payload or chat id. -/
def ignoredResult : HandlerResult :=
  { processed := false, success := true, message := some "Health check ignored".toList,
    action := none, contactName := none, rowUpdated := none, dateSet := none,
    callbackId := none, error := none }

/-- The object returned for the "None Recently" button. -/
def noneResult : HandlerResult :=
  { processed := true, success := true, message := none, action := some "none".toList,
    contactName := none, rowUpdated := none, dateSet := none, callbackId := none,
    error := none }

/-- The object returned after an update. -/
def updatedResult (contactName : JsString) (rowToUpdate : Nat) (today : JsString)
    (callbackQueryId : Option JsString) : HandlerResult :=
  { processed := true, success := true, message := none, action := none,
    contactName := some contactName, rowUpdated := some rowToUpdate, dateSet := some today,
    callbackId := callbackQueryId, error := none }

/-- The object returned by the top-level `catch`. -/
def failedResult (message : JsString) : HandlerResult :=
  { processed := false, success := false, message := none, action := none,
    contactName := none, rowUpdated := none, dateSet := none, callbackId := none,
    error := some message }

/-- Truthiness of a string or `undefined`. -/
def truthyString : Option JsString → Bool
  | some (_ :: _) => true
  | _ => false

/-- Truthiness of a number or `undefined`. -/
def truthyNumber : Option Int → Bool
  | some n => n != 0
  | none => false

/-- The message of `Contact "<name>" not found`. -/
def notFoundMessage (contactName : JsString) : JsString :=
  "Contact \"".toList ++ contactName ++ "\" not found".toList

/-- The message of the `TypeError` raised by `sheetResponse.values.length`
when the response has no `values` field. -/
def noValuesMessage : JsString :=
  "Cannot read properties of undefined (reading \x27length\x27)".toList

/-- Sections 9 to 12 (lines 123-181) for a payload that is not `contact_none`. -/
def updateContact (env : HandlerEnv) (hasButtonData : JsString) (chatId : Int)
    (callbackQueryId : Option JsString) : Proc HandlerResult := do
  let contactName := contactNameOf hasButtonData
  let values ← getSpreadsheetValues env
  match values with
  | none => Proc.throw noValuesMessage
  | some rows =>
    match findRow contactName rows 0 with
    | none => do
      sendTelegramMessage env chatId
        ("❌ Contact \"".toList ++ contactName ++ "\" not found in spreadsheet.".toList)
      Proc.throw (notFoundMessage contactName)
    | some rowToUpdate => do
      request (Effect.putLastContact rowToUpdate env.today) env.putValue
      sendTelegramMessage env chatId
        ("✅ Updated ".toList ++ contactName ++ "\x27s last contact to today!".toList)
      pure (updatedResult contactName rowToUpdate env.today callbackQueryId)

/-- Section 5 (lines 76-83): the control acknowledgment, whose failure is
logged and swallowed. -/
def answerStep (env : HandlerEnv) (ev : CallbackEvent) : Proc Unit :=
  match ev.id with
  | some (c :: cs) =>
    Proc.tryCatch (answerCallbackQuery env (c :: cs) "Processing...".toList)
      (fun _ => Proc.pure ())
  | _ => Proc.pure ()

/-- Sections 6 to 12 (lines 88-181): validation, the "None Recently" button
and the update. -/
def processClick (env : HandlerEnv) (ev : CallbackEvent) : Proc HandlerResult :=
  match ev.data, ev.fromId with
  | some (d :: ds), some chatId =>
    if chatId = 0 then Proc.pure ignoredResult
    else if d :: ds = contactNone then do
      sendTelegramMessage env chatId
        "👍 No problem! I\x27ll check in again next week.".toList
      Proc.pure noneResult
    else updateContact env (d :: ds) chatId ev.id
  | _, _ => Proc.pure ignoredResult

/-- The body of the `try` block (lines 66-181). -/
def mainBody (env : HandlerEnv) (ev : CallbackEvent) : Proc HandlerResult := do
  answerStep env ev
  processClick env ev

/-- The inner `try` of the `catch` block (lines 186-193): the error message
for the user, whose failure is logged and swallowed. -/
def notifyError (env : HandlerEnv) (ev : CallbackEvent) (message : JsString) : Proc Unit :=
  Proc.tryCatch
    (match ev.fromId with
     | some chatId =>
       if chatId = 0 then Proc.pure ()
       else sendTelegramMessage env chatId ("❌ Error: ".toList ++ message)
     | none => Proc.pure ())
    (fun _ => Proc.pure ())

/-- The `catch` block (lines 183-199). -/
def onError (env : HandlerEnv) (ev : CallbackEvent) (message : JsString) : Proc HandlerResult := do
  notifyError env ev message
  Proc.pure (failedResult message)

/-- The handler's `run`. -/
def run (env : HandlerEnv) (ev : CallbackEvent) : Proc HandlerResult := do
  respond
  Proc.tryCatch (mainBody env ev) (onError env ev)

/-- One invocation of the handler: what it returns or throws, and the requests
it issued, in order. -/
def handle (env : HandlerEnv) (ev : CallbackEvent) : Except JsString HandlerResult × List Effect :=
  run env ev []

/-! ## Requests of the handler's steps -/

/-- The requests of the control acknowledgment. -/
def ackEffects (ev : CallbackEvent) : List Effect :=
  match ev.id with
  | some (c :: cs) => [Effect.answerCallbackQuery (c :: cs) "Processing...".toList]
  | _ => []

/-- The requests of the `catch` block. -/
def errorNotice (ev : CallbackEvent) (message : JsString) : List Effect :=
  match ev.fromId with
  | some chatId =>
    if chatId = 0 then [] else [Effect.sendMessage chatId ("❌ Error: ".toList ++ message)]
  | none => []

/-- The store read of the handler. -/
def readRequest : Effect := Effect.getSpreadsheetValues "A2:E100".toList

/-- The chat message of the "None Recently" button. -/
def noneNotice (chatId : Int) : Effect :=
  Effect.sendMessage chatId "👍 No problem! I\x27ll check in again next week.".toList

/-- The chat message for a name that is not in the roster. -/
def notFoundNotice (chatId : Int) (contactName : JsString) : Effect :=
  Effect.sendMessage chatId
    ("❌ Contact \"".toList ++ contactName ++ "\" not found in spreadsheet.".toList)

/-- The chat message that confirms an update. -/
def updatedNotice (chatId : Int) (contactName : JsString) : Effect :=
  Effect.sendMessage chatId
    ("✅ Updated ".toList ++ contactName ++ "\x27s last contact to today!".toList)

/-- The chat message of the `catch` block for a known chat. -/
def errorNoticeTo (chatId : Int) (message : JsString) : Effect :=
  Effect.sendMessage chatId ("❌ Error: ".toList ++ message)

/-- Whether a request is the transport ack. -/
def Effect.isRespond : Effect → Bool
  | Effect.respond _ => true
  | _ => false

/-- What holds of every request of the business logic: it is not a transport
ack, and when it writes a last-contact cell it writes the date `today`. -/
def afterAck (env : HandlerEnv) (e : Effect) : Prop :=
  e.isRespond = false ∧ ∀ row d, e = Effect.putLastContact row d → d = env.today

/-- A store call or a chat message that the run issued and that its
collaborator rejected: the store read, the store write, or the `k`-th chat
message. -/
def BusinessFailure (env : HandlerEnv) (tr : List Effect) : Prop :=
  (readRequest ∈ tr ∧ ∃ e, env.getValues = Except.error e) ∨
  ((∃ row d, Effect.putLastContact row d ∈ tr) ∧ env.putValue ≠ none) ∨
  (∃ k, k < tr.countP Effect.isSend ∧ env.sendMessage k ≠ none)

/-- A step only adds requests, and each request it adds satisfies `Q`. -/
def Emits (Q : Effect → Prop) {α : Type} (p : Proc α) : Prop :=
  ∀ tr, ∃ suf, (p tr).2 = tr ++ suf ∧ ∀ e ∈ suf, Q e

/-! ## The due list in the words of the specification -/

/-- A roster row whose name, date and frequency are present and parseable. -/
structure ValidRow where
  name : JsString
  type : JsString
  lastContactDate : Int
  targetFrequency : Int
  deriving DecidableEq

/-- A cell that is present: it exists and is not blank. -/
def presentCell (row : Row) (i : Nat) : Option JsString :=
  (trimmedCell row i).filter (fun s => decide (s ≠ []))

/-- The valid row a roster row stands for, if it is one. -/
def validRow (parseDate : JsString → Option Int) (row : Row) : Option ValidRow :=
  (presentCell row 0).bind fun name =>
  (presentCell row 2).bind fun lastContactStr =>
  (presentCell row 3).bind fun frequencyStr =>
  (parseDate lastContactStr).bind fun lastContactDate =>
  (jsParseInt frequencyStr).bind fun targetFrequency =>
  some
    { name := name
      type := (presentCell row 1).getD "Contact".toList
      lastContactDate := lastContactDate
      targetFrequency := targetFrequency }

/-- The number `floor((today - lastContactDate) / one day)`, the quotient
taken in the rationals. -/
def daysSince (today : Int) (v : ValidRow) : Int :=
  ⌊(((today - v.lastContactDate : Int) : ℚ) / ((86400000 : Nat) : ℚ))⌋

/-- The due test `daysSinceContact >= targetFrequency - 3`. -/
def isDue (today : Int) (v : ValidRow) : Bool :=
  decide (daysSince today v ≥ v.targetFrequency - 3)

/-- The assessment of a valid row. -/
def assessment (today : Int) (v : ValidRow) : DueContact :=
  { name := v.name
    type := v.type
    daysSinceContact := daysSince today v
    targetFrequency := v.targetFrequency
    overdueDays := max 0 (daysSince today v - v.targetFrequency) }

/-- The due list: the valid rows, in roster order, that pass the due test. -/
def dueList (parseDate : JsString → Option Int) (today : Int) (rows : List Row) :
    List DueContact :=
  ((rows.filterMap (validRow parseDate)).filter (isDue today)).map (assessment today)

/-- The Scheduler's environment with another roster in the Contact Store. -/
def SchedulerEnv.withRows (env : SchedulerEnv) (rows : List Row) : SchedulerEnv :=
  { env with getValues := Except.ok (some rows) }

/-- The returned value with one more row counted as processed. -/
def SchedulerResult.oneMoreRow (r : SchedulerResult) : SchedulerResult :=
  { r with contactsProcessed := r.contactsProcessed + 1 }

/-! ## Callback encoding: round trip -/

theorem replaceWsAux_true_of_head (cs : JsString)
    (h : ∀ d ∈ cs.head?, isJsWhiteSpace d = false) :
    replaceWsAux true cs = replaceWsAux false cs := by
  cases cs with
  | nil => rfl
  | cons d ds =>
    have hd : isJsWhiteSpace d = false := h d (by simp)
    simp [replaceWsAux, hd]

theorem replaceWsAux_isolated (name : JsString)
    (hws : ∀ c ∈ name, isJsWhiteSpace c = true → c = ' ')
    (hrun : ¬ [' ', ' '] <:+: name) :
    replaceWsAux false name = name.map spaceToUnderscore := by
  induction name with
  | nil => rfl
  | cons c cs ih =>
    have hws1 : ∀ d ∈ cs, isJsWhiteSpace d = true → d = ' ' :=
      fun d hd => hws d (List.mem_cons_of_mem c hd)
    have hrun1 : ¬ [' ', ' '] <:+: cs := fun h => hrun (List.infix_cons h)
    have ih1 := ih hws1 hrun1
    by_cases hc : isJsWhiteSpace c = true
    · have hsp : c = ' ' := hws c (List.mem_cons_self c cs) hc
      subst hsp
      have hhead : ∀ d ∈ cs.head?, isJsWhiteSpace d = false := by
        intro d hd
        cases cs with
        | nil => simp at hd
        | cons e es =>
          have hde : d = e := by simpa using hd.symm
          subst hde
          by_contra hne
          have hd1 : isJsWhiteSpace d = true := by simpa using hne
          have hd2 : d = ' ' := hws1 d (List.mem_cons_self d es) hd1
          subst hd2
          exact hrun ⟨[], es, rfl⟩
      simp [replaceWsAux, hc, replaceWsAux_true_of_head cs hhead, ih1, spaceToUnderscore]
    · have hc1 : isJsWhiteSpace c = false := by simpa using hc
      have hne : c ≠ ' ' := by
        intro h
        subst h
        exact absurd hc1 (by decide)
      simp [replaceWsAux, hc1, ih1, spaceToUnderscore, hne]

theorem jsTrim_eq_self (name : JsString)
    (hws : ∀ c ∈ name, isJsWhiteSpace c = true → c = ' ')
    (hhead : name.head? ≠ some ' ') (hlast : name.getLast? ≠ some ' ') :
    jsTrim name = name := by
  have h1 : name.dropWhile isJsWhiteSpace = name := by
    cases name with
    | nil => rfl
    | cons c cs =>
      have hc : isJsWhiteSpace c = false := by
        by_contra hne
        have hc1 : isJsWhiteSpace c = true := by simpa using hne
        have := hws c (List.mem_cons_self c cs) hc1
        subst this
        exact hhead rfl
      simp [List.dropWhile, hc]
  unfold jsTrim
  rw [h1, List.rdropWhile_eq_self_iff]
  intro hl hp
  have hmem : name.getLast hl ∈ name := List.getLast_mem hl
  have hsp := hws _ hmem hp
  apply hlast
  rw [List.getLast?_eq_getLast name hl, hsp]

theorem removeFirst_contactPrefix (x : JsString) :
    removeFirst contactPrefix (contactPrefix ++ x) = x := by
  simp [removeFirst, contactPrefix, List.isPrefixOf]

theorem underscoresToSpaces_map (name : JsString) (hu : '_' ∉ name) :
    underscoresToSpaces (name.map spaceToUnderscore) = name := by
  induction name with
  | nil => rfl
  | cons c cs ih =>
    have hc : c ≠ '_' := fun h => hu (by simp [h])
    have hcs : '_' ∉ cs := fun h => hu (List.mem_cons_of_mem c h)
    have ih1 := ih hcs
    unfold underscoresToSpaces at ih1 ⊢
    simp only [List.map_cons, List.map_map] at ih1 ⊢
    rw [ih1]
    by_cases hsp : c = ' '
    · subst hsp
      simp [spaceToUnderscore]
    · simp [spaceToUnderscore, hsp, hc]

/-- C1, as stated, fails: each of these names has no underscore, yet decoding
its payload does not give the name back.  A run of two spaces comes back as
one space, a tab comes back as a space, a leading space is lost, and the name
`none` is read as the "None Recently" button. -/
theorem decode_encode_counterexample :
    ('_' ∉ "Jane  Doe".toList ∧
      decode (encode "Jane  Doe".toList) = Decoded.contact "Jane Doe".toList ∧
      decode (encode "Jane  Doe".toList) ≠ Decoded.contact "Jane  Doe".toList) ∧
    ('_' ∉ "Jane\tDoe".toList ∧
      decode (encode "Jane\tDoe".toList) = Decoded.contact "Jane Doe".toList ∧
      decode (encode "Jane\tDoe".toList) ≠ Decoded.contact "Jane\tDoe".toList) ∧
    ('_' ∉ " Jane".toList ∧
      decode (encode " Jane".toList) = Decoded.contact "Jane".toList ∧
      decode (encode " Jane".toList) ≠ Decoded.contact " Jane".toList) ∧
    ('_' ∉ "none".toList ∧
      decode (encode "none".toList) = Decoded.sentinel ∧
      decode (encode "none".toList) ≠ Decoded.contact "none".toList) := by
  decide

/-- C1, amended: for every name that contains no underscore, whose only
white-space characters are ordinary spaces, none adjacent to another and none
at either end, and that is not `none`, decoding the payload the Scheduler
builds for the name recovers the name exactly. -/
theorem decode_encode_eq (name : JsString)
    (hu : '_' ∉ name)
    (hws : ∀ c ∈ name, isJsWhiteSpace c = true → c = ' ')
    (hrun : ¬ [' ', ' '] <:+: name)
    (hhead : name.head? ≠ some ' ') (hlast : name.getLast? ≠ some ' ')
    (hnone : name ≠ "none".toList) :
    decode (encode name) = Decoded.contact name := by
  have hround : contactNameOf (encode name) = name := by
    unfold contactNameOf encode callbackData replaceWhitespaceRuns
    rw [jsTrim_eq_self name hws hhead hlast, replaceWsAux_isolated name hws hrun,
      removeFirst_contactPrefix, underscoresToSpaces_map name hu]
  have hsent : encode name ≠ contactNone := by
    intro h
    have h1 : contactNameOf (encode name) = contactNameOf contactNone := by rw [h]
    rw [hround] at h1
    exact hnone (h1.trans (by decide))
  unfold decode
  rw [if_neg hsent, hround]

/-- C1, amended, at the name `Jane Doe`. -/
theorem decode_encode_eq_witness :
    decode (encode "Jane Doe".toList) = Decoded.contact "Jane Doe".toList :=
  decode_encode_eq "Jane Doe".toList (by decide) (by decide)
    (by decide)
    (by decide) (by decide) (by decide)

/-! ## Due-date classification -/

theorem contactsDueLoop_eq (parseDate : JsString → Option Int) (today : Int)
    (rows : List Row) (acc : List DueContact) :
    contactsDueLoop parseDate today rows acc =
      acc ++ rows.filterMap (classifyRow parseDate today) := by
  induction rows generalizing acc with
  | nil => simp [contactsDueLoop]
  | cons row rest ih =>
    unfold contactsDueLoop
    cases h : classifyRow parseDate today row with
    | none => simp [ih, List.filterMap_cons, h]
    | some c => simp [ih, List.filterMap_cons, h]

theorem contactsDue_eq_filterMap (parseDate : JsString → Option Int) (today : Int)
    (rows : List Row) :
    contactsDue parseDate today rows = rows.filterMap (classifyRow parseDate today) := by
  simp [contactsDue, contactsDueLoop_eq]

theorem daysSince_eq (today : Int) (v : ValidRow) :
    daysSince today v = (today - v.lastContactDate) / msPerDay := by
  unfold daysSince msPerDay
  rw [Rat.floor_intCast_div_natCast]
  norm_num

theorem classifyRow_eq (parseDate : JsString → Option Int) (today : Int) (row : Row) :
    classifyRow parseDate today row =
      (validRow parseDate row).bind fun v =>
        if isDue today v then some (assessment today v) else none := by
  rcases row with _ | ⟨a, _ | ⟨b, _ | ⟨c, _ | ⟨d, rest⟩⟩⟩⟩
  · simp [classifyRow, validRow, presentCell, trimmedCell]
  · simp [classifyRow, validRow, presentCell, trimmedCell]
  · simp [classifyRow, validRow, presentCell, trimmedCell]
  · simp [classifyRow, validRow, presentCell, trimmedCell]
  · simp only [classifyRow, validRow, presentCell, trimmedCell, List.length_cons, List.get?]
    by_cases ha : jsTrim a = []
    · simp [ha, Option.filter]
    by_cases hc : jsTrim c = []
    · simp [ha, hc, Option.filter]
    by_cases hd : jsTrim d = []
    · simp [ha, hc, hd, Option.filter]
    cases hpd : parseDate (jsTrim c) with
    | none => simp [ha, hc, hd, Option.filter, hpd]
    | some last =>
      cases hpi : jsParseInt (jsTrim d) with
      | none => simp [ha, hc, hd, Option.filter, hpd, hpi]
      | some freq =>
        have hlen : ¬ (rest.length + 1 + 1 + 1 + 1 < 4) := by omega
        have htype : (match some (jsTrim b) with
            | some (c :: cs) => c :: cs
            | _ => "Contact".toList) =
            (if jsTrim b = [] then none else some (jsTrim b)).getD "Contact".toList := by
          cases jsTrim b <;> simp
        simp only [String.toList] at htype
        simp [ha, hc, hd, Option.filter, hpd, hpi, isDue, assessment, daysSince_eq, bufferDays,
          hlen, htype]

theorem contactsDue_append (parseDate : JsString → Option Int) (today : Int)
    (xs ys : List Row) :
    contactsDue parseDate today (xs ++ ys) =
      contactsDue parseDate today xs ++ contactsDue parseDate today ys := by
  simp [contactsDue_eq_filterMap, List.filterMap_append]

theorem filterMap_due (today : Int) (vs : List ValidRow) :
    vs.filterMap (fun v => if isDue today v then some (assessment today v) else none) =
      (vs.filter (isDue today)).map (assessment today) := by
  induction vs with
  | nil => rfl
  | cons v rest ih =>
    by_cases h : isDue today v = true
    · simp [List.filterMap_cons, List.filter_cons, h, ih]
    · simp [List.filterMap_cons, List.filter_cons, h, ih]

theorem contactsDue_singleton (parseDate : JsString → Option Int) (today : Int)
    (row : Row) (v : ValidRow) (hv : validRow parseDate row = some v) :
    contactsDue parseDate today [row] =
      if isDue today v then [assessment today v] else [] := by
  rw [contactsDue_eq_filterMap]
  by_cases h : isDue today v = true
  · simp [List.filterMap_cons, classifyRow_eq, hv, h]
  · simp [List.filterMap_cons, classifyRow_eq, hv, h]

/-- C4: for every roster and every run time the Scheduler's due list is the
list of the valid rows (name, date and frequency present and parseable), in
roster order, whose `daysSinceContact = floor((today - lastContactDate) / one
day)` is at least `targetFrequency - 3`; the list of a roster in two parts is
the list of the first part followed by the list of the second; a valid row
with `daysSinceContact = targetFrequency - 3` yields its entry and a valid row
with `daysSinceContact = targetFrequency - 4` yields none. -/
theorem contactsDue_eq_dueList (parseDate : JsString → Option Int) (today : Int)
    (rows : List Row) :
    contactsDue parseDate today rows = dueList parseDate today rows ∧
    (∀ xs ys : List Row, contactsDue parseDate today (xs ++ ys) =
        contactsDue parseDate today xs ++ contactsDue parseDate today ys) ∧
    (∀ (row : Row) (v : ValidRow), validRow parseDate row = some v →
        daysSince today v = v.targetFrequency - 3 →
        contactsDue parseDate today [row] = [assessment today v]) ∧
    (∀ (row : Row) (v : ValidRow), validRow parseDate row = some v →
        daysSince today v = v.targetFrequency - 4 →
        contactsDue parseDate today [row] = []) := by
  refine ⟨?_, contactsDue_append parseDate today, ?_, ?_⟩
  · rw [contactsDue_eq_filterMap, dueList, ← filterMap_due, List.filterMap_filterMap]
    congr 1
    funext row
    exact classifyRow_eq parseDate today row
  · intro row v hv hd
    rw [contactsDue_singleton parseDate today row v hv]
    have h : isDue today v = true := by simp [isDue, hd]
    simp [h]
  · intro row v hv hd
    rw [contactsDue_singleton parseDate today row v hv]
    have h : isDue today v = false := by
      simp only [isDue, hd, decide_eq_false_iff_not]
      omega
    simp [h]

/-- C8, as stated, fails: the frequency cells `0` and `-5` are not positive
integers and the cell `7 days` is not a number, yet `parseInt` reads 0, -5 and
7 from them, the rows are classified, and each yields an entry of the due
list (the run is at midnight UTC of 2026-11-04). -/
theorem nonpositive_frequency_counterexample :
    contactsDue isoDateMs 1793750400000
        [["Bob".toList, "Friend".toList, "2026-11-04".toList, "0".toList]] =
      [{ name := "Bob".toList, type := "Friend".toList, daysSinceContact := 0,
         targetFrequency := 0, overdueDays := 0 }] ∧
    contactsDue isoDateMs 1793750400000
        [["Bob".toList, "Friend".toList, "2026-11-04".toList, "-5".toList]] =
      [{ name := "Bob".toList, type := "Friend".toList, daysSinceContact := 0,
         targetFrequency := -5, overdueDays := 5 }] ∧
    contactsDue isoDateMs 1793750400000
        [["Bob".toList, "Friend".toList, "2026-10-31".toList, "7 days".toList]] =
      [{ name := "Bob".toList, type := "Friend".toList, daysSinceContact := 4,
         targetFrequency := 7, overdueDays := 0 }] := by
  decide

/-- C8, amended: for every roster row whose frequency cell is missing, blank
or read by `parseInt` as `NaN` (as `weekly` is, where no digit follows the
optional sign), the Scheduler skips the row, whatever its name and date: the row
yields no entry, the due list of a roster that holds the row is the due list
of the roster without it, and the run with the row issues the same requests
and ends the same way as the run without it, with one more row counted as
processed. -/
theorem nan_frequency_row_skipped (env : SchedulerEnv) (pre post : List Row) (row : Row)
    (hfreq : (trimmedCell row 3).bind jsParseInt = none) :
    classifyRow env.parseDate env.now row = none ∧
    contactsDue env.parseDate env.now (pre ++ row :: post) =
      contactsDue env.parseDate env.now (pre ++ post) ∧
    (schedulerRun (env.withRows (pre ++ row :: post))).2 =
      (schedulerRun (env.withRows (pre ++ post))).2 ∧
    (schedulerRun (env.withRows (pre ++ row :: post))).1 =
      (schedulerRun (env.withRows (pre ++ post))).1.map SchedulerResult.oneMoreRow := by
  have hskip : classifyRow env.parseDate env.now row = none := by
    rw [classifyRow_eq]
    have hv : validRow env.parseDate row = none := by
      unfold validRow presentCell
      cases h3 : trimmedCell row 3 with
      | none => simp [Option.filter]
      | some s =>
        have hs : jsParseInt s = none := by simpa [h3] using hfreq
        by_cases hne : s = []
        · simp [Option.filter, hne]
        · simp [Option.filter, hne, hs]
    simp [hv]
  have hdue : contactsDue env.parseDate env.now (pre ++ row :: post) =
      contactsDue env.parseDate env.now (pre ++ post) := by
    simp [contactsDue_eq_filterMap, List.filterMap_append, List.filterMap_cons, hskip]
  refine ⟨hskip, hdue, ?_, ?_⟩
  · simp only [schedulerRun, SchedulerEnv.withRows, Option.getD_some, hdue]
    cases env.sendMessage <;> rfl
  · simp only [schedulerRun, SchedulerEnv.withRows, Option.getD_some, hdue]
    cases env.sendMessage with
    | none =>
      simp [Except.map, SchedulerResult.oneMoreRow]
      omega
    | some e => rfl

/-- C8, amended, at a row whose frequency cell is `weekly`. -/
theorem nan_frequency_row_skipped_witness :
    (trimmedCell ["Ann".toList, "Friend".toList, "2026-10-01".toList, "weekly".toList] 3).bind
        jsParseInt = none ∧
    contactsDue isoDateMs 1793750400000
        ([] ++ ["Ann".toList, "Friend".toList, "2026-10-01".toList, "weekly".toList] :: []) =
      contactsDue isoDateMs 1793750400000 ([] ++ []) :=
  ⟨by decide,
   (nan_frequency_row_skipped
      { getValues := Except.ok none, now := 1793750400000, parseDate := isoDateMs,
        sendMessage := none }
      [] [] ["Ann".toList, "Friend".toList, "2026-10-01".toList, "weekly".toList]
      (by decide)).2.1⟩

/-! ## Callback Handler: structure of a run -/

theorem Proc.bind_apply {α β : Type} (m : Proc α) (f : α → Proc β) (tr : List Effect) :
    (m >>= f) tr =
      match m tr with
      | (Except.ok a, tr1) => f a tr1
      | (Except.error e, tr1) => (Except.error e, tr1) := rfl

theorem Proc.pure_apply {α : Type} (a : α) (tr : List Effect) :
    (Proc.pure a) tr = (Except.ok a, tr) := rfl

theorem emits_pure (Q : Effect → Prop) {α : Type} (a : α) : Emits Q (Proc.pure a) :=
  fun tr => ⟨[], by simp [Proc.pure]⟩

theorem emits_throw (Q : Effect → Prop) {α : Type} (msg : JsString) :
    Emits Q (Proc.throw msg : Proc α) :=
  fun tr => ⟨[], by simp [Proc.throw]⟩

theorem emits_bind {Q : Effect → Prop} {α β : Type} {m : Proc α} {f : α → Proc β}
    (hm : Emits Q m) (hf : ∀ a, Emits Q (f a)) : Emits Q (m >>= f) := by
  intro tr
  obtain ⟨s1, h1, q1⟩ := hm tr
  rw [Proc.bind_apply]
  rcases hmt : m tr with ⟨r, tr1⟩
  rw [hmt] at h1
  simp only at h1
  subst h1
  cases r with
  | error e => exact ⟨s1, rfl, q1⟩
  | ok a =>
    obtain ⟨s2, h2, q2⟩ := hf a (tr ++ s1)
    refine ⟨s1 ++ s2, by simpa [List.append_assoc] using h2, ?_⟩
    intro e he
    rcases List.mem_append.mp he with h | h
    · exact q1 e h
    · exact q2 e h

theorem emits_tryCatch {Q : Effect → Prop} {α : Type} {m : Proc α} {f : JsString → Proc α}
    (hm : Emits Q m) (hf : ∀ e, Emits Q (f e)) : Emits Q (Proc.tryCatch m f) := by
  intro tr
  obtain ⟨s1, h1, q1⟩ := hm tr
  unfold Proc.tryCatch
  rcases hmt : m tr with ⟨r, tr1⟩
  rw [hmt] at h1
  simp only at h1
  subst h1
  cases r with
  | ok a => exact ⟨s1, rfl, q1⟩
  | error e =>
    obtain ⟨s2, h2, q2⟩ := hf e (tr ++ s1)
    refine ⟨s1 ++ s2, by simpa [List.append_assoc] using h2, ?_⟩
    intro x hx
    rcases List.mem_append.mp hx with h | h
    · exact q1 x h
    · exact q2 x h

theorem emits_request {Q : Effect → Prop} (e : Effect) (outcome : Option JsString) (he : Q e) :
    Emits Q (request e outcome) := by
  intro tr
  refine ⟨[e], ?_, by simpa using he⟩
  cases outcome <;> rfl

theorem emits_sendTelegramMessage {Q : Effect → Prop} (env : HandlerEnv) (chatId : Int)
    (text : JsString) (he : Q (Effect.sendMessage chatId text)) :
    Emits Q (sendTelegramMessage env chatId text) := by
  intro tr
  exact emits_request (Effect.sendMessage chatId text) _ he tr

theorem emits_getSpreadsheetValues {Q : Effect → Prop} (env : HandlerEnv)
    (he : Q readRequest) : Emits Q (getSpreadsheetValues env) := by
  intro tr
  refine ⟨[readRequest], ?_, by simpa using he⟩
  unfold getSpreadsheetValues
  cases env.getValues <;> rfl

theorem emits_answerStep (env : HandlerEnv) (ev : CallbackEvent) :
    Emits (afterAck env) (answerStep env ev) := by
  unfold answerStep
  split
  · exact emits_tryCatch (emits_request _ _ ⟨rfl, by simp⟩) (fun _ => emits_pure _ ())
  · exact emits_pure _ ()

theorem emits_updateContact (env : HandlerEnv) (data : JsString) (chatId : Int)
    (cb : Option JsString) : Emits (afterAck env) (updateContact env data chatId cb) := by
  unfold updateContact
  refine emits_bind (emits_getSpreadsheetValues env ⟨rfl, by simp [readRequest]⟩) ?_
  intro values
  cases values with
  | none => exact emits_throw _ _
  | some rows =>
    dsimp only
    cases findRow (contactNameOf data) rows 0 with
    | none =>
      exact emits_bind (emits_sendTelegramMessage env _ _ ⟨rfl, by simp⟩)
        (fun _ => emits_throw _ _)
    | some rowToUpdate =>
      refine emits_bind (emits_request _ _ ⟨rfl, ?_⟩) (fun _ => ?_)
      · intro row d h
        injection h with _ h2
        exact h2.symm
      · exact emits_bind (emits_sendTelegramMessage env _ _ ⟨rfl, by simp⟩)
          (fun _ => emits_pure _ _)

theorem emits_processClick (env : HandlerEnv) (ev : CallbackEvent) :
    Emits (afterAck env) (processClick env ev) := by
  unfold processClick
  split
  · split
    · exact emits_pure _ _
    · split
      · exact emits_bind (emits_sendTelegramMessage env _ _ ⟨rfl, by simp⟩)
          (fun _ => emits_pure _ _)
      · exact emits_updateContact env _ _ _
  · exact emits_pure _ _

theorem emits_mainBody (env : HandlerEnv) (ev : CallbackEvent) :
    Emits (afterAck env) (mainBody env ev) :=
  emits_bind (emits_answerStep env ev) (fun _ => emits_processClick env ev)

theorem emits_notifyError (env : HandlerEnv) (ev : CallbackEvent) (message : JsString) :
    Emits (afterAck env) (notifyError env ev message) := by
  unfold notifyError
  refine emits_tryCatch ?_ (fun _ => emits_pure _ ())
  split
  · split
    · exact emits_pure _ ()
    · exact emits_sendTelegramMessage env _ _ ⟨rfl, by simp⟩
  · exact emits_pure _ ()

theorem emits_onError (env : HandlerEnv) (ev : CallbackEvent) (message : JsString) :
    Emits (afterAck env) (onError env ev message) :=
  emits_bind (emits_notifyError env ev message) (fun _ => emits_pure _ _)

theorem handle_eq (env : HandlerEnv) (ev : CallbackEvent) :
    handle env ev =
      Proc.tryCatch (mainBody env ev) (onError env ev) [Effect.respond 200] := rfl

theorem handle_trace (env : HandlerEnv) (ev : CallbackEvent) :
    ∃ rest, (handle env ev).2 = Effect.respond 200 :: rest ∧ ∀ e ∈ rest, afterAck env e := by
  obtain ⟨suf, h, q⟩ :=
    emits_tryCatch (emits_mainBody env ev) (emits_onError env ev) [Effect.respond 200]
  exact ⟨suf, by rw [handle_eq, h]; rfl, q⟩

/-- C2: in every run of the Callback Handler, whatever the event and whatever
the collaborators answer, the transport ack (the response of status 200) is
the first request issued; every control ack, chat message, store read and
store write comes after it, and no second transport ack is issued. -/
theorem transport_ack_first (env : HandlerEnv) (ev : CallbackEvent) :
    ∃ rest, (handle env ev).2 = Effect.respond 200 :: rest ∧
      ∀ e ∈ rest, e.isRespond = false := by
  obtain ⟨rest, h, q⟩ := handle_trace env ev
  exact ⟨rest, h, fun e he => (q e he).1⟩

/-! ## Callback Handler: evaluation of the steps -/

theorem answerStep_apply (env : HandlerEnv) (ev : CallbackEvent) (tr : List Effect) :
    answerStep env ev tr = (Except.ok (), tr ++ ackEffects ev) := by
  obtain ⟨data, fromId, id⟩ := ev
  rcases id with _ | _ | ⟨c, cs⟩
  · simp [answerStep, ackEffects, Proc.pure]
  · simp [answerStep, ackEffects, Proc.pure]
  · simp only [answerStep, ackEffects, Proc.tryCatch, answerCallbackQuery, request]
    cases env.answerCallbackQuery <;> rfl

theorem notifyError_apply (env : HandlerEnv) (ev : CallbackEvent) (message : JsString)
    (tr : List Effect) :
    notifyError env ev message tr = (Except.ok (), tr ++ errorNotice ev message) := by
  unfold notifyError errorNotice
  cases ev.fromId with
  | none => simp [Proc.tryCatch, Proc.pure]
  | some chatId =>
    by_cases h : chatId = 0
    · simp [Proc.tryCatch, Proc.pure, h]
    · simp only [Proc.tryCatch, h, if_false, sendTelegramMessage, request]
      cases env.sendMessage (List.countP Effect.isSend tr) <;> rfl

theorem onError_apply (env : HandlerEnv) (ev : CallbackEvent) (message : JsString)
    (tr : List Effect) :
    onError env ev message tr =
      (Except.ok (failedResult message), tr ++ errorNotice ev message) := by
  unfold onError
  rw [Proc.bind_apply, notifyError_apply]
  rfl

theorem handle_eval (env : HandlerEnv) (ev : CallbackEvent) :
    handle env ev =
      match processClick env ev (Effect.respond 200 :: ackEffects ev) with
      | (Except.ok r, tr) => (Except.ok r, tr)
      | (Except.error e, tr) => (Except.ok (failedResult e), tr ++ errorNotice ev e) := by
  rw [handle_eq]
  unfold Proc.tryCatch mainBody
  rw [Proc.bind_apply, answerStep_apply]
  simp only [List.singleton_append]
  rcases processClick env ev (Effect.respond 200 :: ackEffects ev) with ⟨r, tr⟩
  cases r with
  | ok a => rfl
  | error e => simp [onError_apply]

theorem countP_isSend_ack (ev : CallbackEvent) :
    (Effect.respond 200 :: ackEffects ev).countP Effect.isSend = 0 := by
  obtain ⟨data, fromId, id⟩ := ev
  rcases id with _ | _ | ⟨c, cs⟩ <;> simp [ackEffects, Effect.isSend]

theorem processClick_ignored (env : HandlerEnv) (ev : CallbackEvent) (tr : List Effect)
    (h : truthyString ev.data = false ∨ truthyNumber ev.fromId = false) :
    processClick env ev tr = (Except.ok ignoredResult, tr) := by
  obtain ⟨data, fromId, id⟩ := ev
  rcases data with _ | _ | ⟨d, ds⟩
  · simp [processClick, Proc.pure]
  · simp [processClick, Proc.pure]
  · cases fromId with
    | none => simp [processClick, Proc.pure]
    | some chatId =>
      have hz : chatId = 0 := by simpa [truthyString, truthyNumber] using h
      simp [processClick, Proc.pure, hz]

theorem sendTelegramMessage_apply (env : HandlerEnv) (chatId : Int) (text : JsString)
    (tr : List Effect) :
    sendTelegramMessage env chatId text tr =
      (match env.sendMessage (tr.countP Effect.isSend) with
        | none => Except.ok ()
        | some e => Except.error e,
       tr ++ [Effect.sendMessage chatId text]) := by
  simp only [sendTelegramMessage, request]
  cases env.sendMessage (List.countP Effect.isSend tr) <;> rfl

theorem processClick_none (env : HandlerEnv) (ev : CallbackEvent) (tr : List Effect)
    (chatId : Int) (hd : ev.data = some contactNone) (hc : ev.fromId = some chatId)
    (hz : chatId ≠ 0) :
    processClick env ev tr =
      (match env.sendMessage (tr.countP Effect.isSend) with
        | none => Except.ok noneResult
        | some e => Except.error e,
       tr ++ [noneNotice chatId]) := by
  obtain ⟨data, fromId, id⟩ := ev
  simp only at hd hc
  subst hd hc
  simp only [processClick, contactNone, String.toList, hz, if_false, if_true, Proc.bind_apply,
    sendTelegramMessage_apply, noneNotice]
  cases env.sendMessage (List.countP Effect.isSend tr) <;> rfl

theorem processClick_update (env : HandlerEnv) (ev : CallbackEvent) (tr : List Effect)
    (data : JsString) (chatId : Int) (hd : ev.data = some data) (hne : data ≠ [])
    (hns : data ≠ contactNone) (hc : ev.fromId = some chatId) (hz : chatId ≠ 0) :
    processClick env ev tr = updateContact env data chatId ev.id tr := by
  obtain ⟨data1, fromId, id⟩ := ev
  simp only at hd hc
  subst hd hc
  cases data with
  | nil => exact absurd rfl hne
  | cons d ds => simp [processClick, hz, hns]

theorem getSpreadsheetValues_apply (env : HandlerEnv) (tr : List Effect) :
    getSpreadsheetValues env tr = (env.getValues, tr ++ [readRequest]) := by
  unfold getSpreadsheetValues readRequest
  cases env.getValues <;> rfl

theorem updateContact_readError (env : HandlerEnv) (data : JsString) (chatId : Int)
    (cb : Option JsString) (tr : List Effect) (e : JsString)
    (hread : env.getValues = Except.error e) :
    updateContact env data chatId cb tr = (Except.error e, tr ++ [readRequest]) := by
  simp [updateContact, Proc.bind_apply, getSpreadsheetValues_apply, hread]

theorem updateContact_noValues (env : HandlerEnv) (data : JsString) (chatId : Int)
    (cb : Option JsString) (tr : List Effect) (hread : env.getValues = Except.ok none) :
    updateContact env data chatId cb tr =
      (Except.error noValuesMessage, tr ++ [readRequest]) := by
  simp [updateContact, Proc.bind_apply, getSpreadsheetValues_apply, hread, Proc.throw]

theorem countP_isSend_read (tr : List Effect) :
    (tr ++ [readRequest]).countP Effect.isSend = tr.countP Effect.isSend := by
  simp [List.countP_append, readRequest, Effect.isSend]

theorem countP_isSend_put (tr : List Effect) (row : Nat) (d : JsString) :
    (tr ++ [readRequest] ++ [Effect.putLastContact row d]).countP Effect.isSend =
      tr.countP Effect.isSend := by
  simp [List.countP_append, readRequest, Effect.isSend]

theorem updateContact_notFound (env : HandlerEnv) (data : JsString) (chatId : Int)
    (cb : Option JsString) (tr : List Effect) (rows : List Row)
    (hread : env.getValues = Except.ok (some rows))
    (hfind : findRow (contactNameOf data) rows 0 = none) :
    updateContact env data chatId cb tr =
      (Except.error
        (match env.sendMessage (tr.countP Effect.isSend) with
          | none => notFoundMessage (contactNameOf data)
          | some e => e),
       tr ++ [readRequest, notFoundNotice chatId (contactNameOf data)]) := by
  simp only [updateContact, Proc.bind_apply, getSpreadsheetValues_apply, hread, hfind,
    sendTelegramMessage_apply, countP_isSend_read, notFoundNotice]
  generalize env.sendMessage (List.countP Effect.isSend tr) = o
  cases o <;> simp [Proc.throw]

theorem updateContact_found (env : HandlerEnv) (data : JsString) (chatId : Int)
    (cb : Option JsString) (tr : List Effect) (rows : List Row) (rowToUpdate : Nat)
    (hread : env.getValues = Except.ok (some rows))
    (hfind : findRow (contactNameOf data) rows 0 = some rowToUpdate) :
    updateContact env data chatId cb tr =
      match env.putValue with
      | some e =>
        (Except.error e, tr ++ [readRequest, Effect.putLastContact rowToUpdate env.today])
      | none =>
        (match env.sendMessage (tr.countP Effect.isSend) with
          | none =>
            Except.ok (updatedResult (contactNameOf data) rowToUpdate env.today cb)
          | some e => Except.error e,
         tr ++ [readRequest, Effect.putLastContact rowToUpdate env.today,
           updatedNotice chatId (contactNameOf data)]) := by
  simp only [updateContact, Proc.bind_apply, getSpreadsheetValues_apply, hread, hfind,
    sendTelegramMessage_apply, updatedNotice, request]
  cases env.putValue with
  | some e => simp
  | none =>
    simp only [countP_isSend_put]
    generalize env.sendMessage (List.countP Effect.isSend tr) = o
    cases o <;> simp [pure, Proc.pure]

theorem findRow_eq_none (contactName : JsString) (rows : List Row) (k : Nat)
    (h : ∀ row ∈ rows, trimmedCell row 0 ≠ some contactName) :
    findRow contactName rows k = none := by
  induction rows generalizing k with
  | nil => rfl
  | cons row rest ih =>
    have h0 : trimmedCell row 0 ≠ some contactName := h row (List.mem_cons_self row rest)
    have h1 : ∀ r ∈ rest, trimmedCell r 0 ≠ some contactName :=
      fun r hr => h r (List.mem_cons_of_mem row hr)
    simp [findRow, h0, ih (k + 1) h1]

theorem findRow_first (contactName : JsString) (rows : List Row) (i k : Nat) (row : Row)
    (hi : rows.get? i = some row) (hrow : trimmedCell row 0 = some contactName)
    (hleast : ∀ j r, j < i → rows.get? j = some r → trimmedCell r 0 ≠ some contactName) :
    findRow contactName rows k = some (i + k + 2) := by
  induction rows generalizing i k with
  | nil => simp at hi
  | cons r0 rest ih =>
    cases i with
    | zero =>
      have h0 : r0 = row := by simpa using hi
      subst h0
      simp [findRow, hrow]
    | succ n =>
      have h0 : trimmedCell r0 0 ≠ some contactName := hleast 0 r0 (Nat.succ_pos n) rfl
      have hn : rest.get? n = some row := by simpa using hi
      have hl : ∀ j r, j < n → rest.get? j = some r → trimmedCell r 0 ≠ some contactName :=
        fun j r hj hr => hleast (j + 1) r (Nat.succ_lt_succ hj) (by simpa using hr)
      have := ih n (k + 1) hn hl
      simp only [findRow, h0, if_false, this]
      congr 1
      omega

/-- C7: for every event whose control payload is absent or empty, or whose
chat id is absent or zero (the empty event included), whether or not it
carries a callback id and whatever the control ack answers, the handler
returns `processed=false, success=true`; it issues the transport ack and the
control ack only: no chat message, no store read and no store write. -/
theorem ignored_event (env : HandlerEnv) (ev : CallbackEvent)
    (h : truthyString ev.data = false ∨ truthyNumber ev.fromId = false) :
    (∃ r, (handle env ev).1 = Except.ok r ∧ r.processed = false ∧ r.success = true) ∧
    (handle env ev).2 = Effect.respond 200 :: ackEffects ev ∧
    ∀ e ∈ (handle env ev).2, e.isSend = false ∧ e.isRead = false ∧ e.isWrite = false := by
  have heval : handle env ev = (Except.ok ignoredResult, Effect.respond 200 :: ackEffects ev) := by
    rw [handle_eval, processClick_ignored env ev _ h]
  rw [heval]
  refine ⟨⟨ignoredResult, rfl, rfl, rfl⟩, rfl, ?_⟩
  obtain ⟨data, fromId, id⟩ := ev
  rcases id with _ | _ | ⟨c, cs⟩ <;>
    simp [ackEffects, Effect.isSend, Effect.isRead, Effect.isWrite]

/-- C7 at the empty event, with a control ack that would fail. -/
theorem ignored_event_witness :
    (∃ r, (handle
        { answerCallbackQuery := some "Bad Request".toList, sendMessage := fun _ => none,
          getValues := Except.ok none, putValue := none, today := "2026-11-04".toList }
        { data := none, fromId := none, id := none }).1 = Except.ok r ∧
      r.processed = false ∧ r.success = true) :=
  (ignored_event
    { answerCallbackQuery := some "Bad Request".toList, sendMessage := fun _ => none,
      getValues := Except.ok none, putValue := none, today := "2026-11-04".toList }
    { data := none, fromId := none, id := none } (Or.inl rfl)).1

theorem errorNotice_eq (ev : CallbackEvent) (chatId : Int) (message : JsString)
    (hc : ev.fromId = some chatId) (hz : chatId ≠ 0) :
    errorNotice ev message = [errorNoticeTo chatId message] := by
  simp [errorNotice, errorNoticeTo, hc, hz]

theorem ack_quiet (ev : CallbackEvent) :
    ∀ e ∈ Effect.respond 200 :: ackEffects ev,
      e.isSend = false ∧ e.isRead = false ∧ e.isWrite = false := by
  obtain ⟨data, fromId, id⟩ := ev
  rcases id with _ | _ | ⟨c, cs⟩ <;>
    simp [ackEffects, Effect.isSend, Effect.isRead, Effect.isWrite]

theorem handle_none (env : HandlerEnv) (ev : CallbackEvent) (chatId : Int)
    (hd : ev.data = some contactNone) (hc : ev.fromId = some chatId) (hz : chatId ≠ 0) :
    handle env ev =
      match env.sendMessage 0 with
      | none => (Except.ok noneResult, Effect.respond 200 :: ackEffects ev ++ [noneNotice chatId])
      | some e =>
        (Except.ok (failedResult e),
          Effect.respond 200 :: ackEffects ev ++ [noneNotice chatId, errorNoticeTo chatId e]) := by
  rw [handle_eval, processClick_none env ev _ chatId hd hc hz, countP_isSend_ack]
  cases env.sendMessage 0 with
  | none => rfl
  | some e => simp [errorNotice_eq ev chatId e hc hz]

/-- C6, as stated, fails: the event carries chat id 7 and the payload
`contact_none`, the acknowledgment chat message is rejected by the Messaging
Gateway, and the handler returns `processed=false, success=false`. -/
theorem none_button_counterexample :
    (handle
      { answerCallbackQuery := none,
        sendMessage := fun _ => some "Request failed with status code 403".toList,
        getValues := Except.ok none, putValue := none, today := "2026-11-04".toList }
      { data := some "contact_none".toList, fromId := some 7, id := some "cb1".toList }).1 =
    Except.ok
      { processed := false, success := false, message := none, action := none,
        contactName := none, rowUpdated := none, dateSet := none, callbackId := none,
        error := some "Request failed with status code 403".toList } := by
  rfl

/-- C6, amended: for every event that carries a chat id (present and not
zero) and the payload `contact_none`, the handler issues no store read and no
store write; when the
acknowledgment chat message is accepted by the Messaging Gateway it returns
`processed=true, action='none', success=true`, and when that message is
rejected it returns `processed=false, success=false` with the rejection as
error. -/
theorem none_button (env : HandlerEnv) (ev : CallbackEvent) (chatId : Int)
    (hd : ev.data = some contactNone) (hc : ev.fromId = some chatId) (hz : chatId ≠ 0) :
    (∀ e ∈ (handle env ev).2, e.isWrite = false ∧ e.isRead = false) ∧
    (env.sendMessage 0 = none →
      ∃ r, (handle env ev).1 = Except.ok r ∧ r.processed = true ∧
        r.action = some "none".toList ∧ r.success = true) ∧
    (∀ msg, env.sendMessage 0 = some msg →
      ∃ r, (handle env ev).1 = Except.ok r ∧ r.processed = false ∧ r.success = false ∧
        r.error = some msg) := by
  have heval := handle_none env ev chatId hd hc hz
  have hq := ack_quiet ev
  refine ⟨?_, ?_, ?_⟩
  · intro e he
    rw [heval] at he
    cases hs : env.sendMessage 0 with
    | none =>
      rw [hs] at he
      simp only [List.cons_append, List.mem_cons, List.mem_append, List.not_mem_nil,
        or_false] at he
      rcases he with he | he | he
      · subst he; exact ⟨rfl, rfl⟩
      · exact ⟨(hq e (List.mem_cons_of_mem _ he)).2.2, (hq e (List.mem_cons_of_mem _ he)).2.1⟩
      · subst he; exact ⟨rfl, rfl⟩
    | some msg =>
      rw [hs] at he
      simp only [List.cons_append, List.mem_cons, List.mem_append, List.not_mem_nil,
        or_false] at he
      rcases he with he | he | he | he
      · subst he; exact ⟨rfl, rfl⟩
      · exact ⟨(hq e (List.mem_cons_of_mem _ he)).2.2, (hq e (List.mem_cons_of_mem _ he)).2.1⟩
      · subst he; exact ⟨rfl, rfl⟩
      · subst he; exact ⟨rfl, rfl⟩
  · intro hs
    rw [heval, hs]
    exact ⟨noneResult, rfl, rfl, rfl, rfl⟩
  · intro msg hs
    rw [heval, hs]
    exact ⟨failedResult msg, rfl, rfl, rfl, rfl⟩

/-- C6, amended, at an event with chat id 7 whose acknowledgment is accepted. -/
theorem none_button_witness :
    ∃ r, (handle
        { answerCallbackQuery := none, sendMessage := fun _ => none,
          getValues := Except.ok none, putValue := none, today := "2026-11-04".toList }
        { data := some "contact_none".toList, fromId := some 7, id := none }).1 = Except.ok r ∧
      r.processed = true ∧ r.action = some "none".toList ∧ r.success = true :=
  (none_button
    { answerCallbackQuery := none, sendMessage := fun _ => none,
      getValues := Except.ok none, putValue := none, today := "2026-11-04".toList }
    { data := some "contact_none".toList, fromId := some 7, id := none } 7
    rfl rfl (by decide)).2.1 rfl

theorem handle_notFound (env : HandlerEnv) (ev : CallbackEvent) (data : JsString)
    (chatId : Int) (rows : List Row)
    (hd : ev.data = some data) (hne : data ≠ []) (hns : data ≠ contactNone)
    (hc : ev.fromId = some chatId) (hz : chatId ≠ 0)
    (hread : env.getValues = Except.ok (some rows))
    (hno : ∀ row ∈ rows, trimmedCell row 0 ≠ some (contactNameOf data)) :
    handle env ev =
      (Except.ok (failedResult
          (match env.sendMessage 0 with
            | none => notFoundMessage (contactNameOf data)
            | some e => e)),
        Effect.respond 200 :: ackEffects ev ++
          [readRequest, notFoundNotice chatId (contactNameOf data),
            errorNoticeTo chatId
              (match env.sendMessage 0 with
                | none => notFoundMessage (contactNameOf data)
                | some e => e)]) := by
  rw [handle_eval, processClick_update env ev _ data chatId hd hne hns hc hz,
    updateContact_notFound env data chatId ev.id _ rows hread
      (findRow_eq_none _ rows 0 hno), countP_isSend_ack]
  simp [errorNotice_eq ev chatId _ hc hz]

theorem handle_found (env : HandlerEnv) (ev : CallbackEvent) (data : JsString)
    (chatId : Int) (rows : List Row) (rowToUpdate : Nat)
    (hd : ev.data = some data) (hne : data ≠ []) (hns : data ≠ contactNone)
    (hc : ev.fromId = some chatId) (hz : chatId ≠ 0)
    (hread : env.getValues = Except.ok (some rows))
    (hfind : findRow (contactNameOf data) rows 0 = some rowToUpdate) :
    handle env ev =
      match env.putValue with
      | some e =>
        (Except.ok (failedResult e),
          Effect.respond 200 :: ackEffects ev ++
            [readRequest, Effect.putLastContact rowToUpdate env.today, errorNoticeTo chatId e])
      | none =>
        match env.sendMessage 0 with
        | none =>
          (Except.ok (updatedResult (contactNameOf data) rowToUpdate env.today ev.id),
            Effect.respond 200 :: ackEffects ev ++
              [readRequest, Effect.putLastContact rowToUpdate env.today,
                updatedNotice chatId (contactNameOf data)])
        | some e =>
          (Except.ok (failedResult e),
            Effect.respond 200 :: ackEffects ev ++
              [readRequest, Effect.putLastContact rowToUpdate env.today,
                updatedNotice chatId (contactNameOf data), errorNoticeTo chatId e]) := by
  rw [handle_eval, processClick_update env ev _ data chatId hd hne hns hc hz,
    updateContact_found env data chatId ev.id _ rows rowToUpdate hread hfind,
    countP_isSend_ack]
  cases env.putValue with
  | some e => simp [errorNotice_eq ev chatId _ hc hz]
  | none =>
    cases env.sendMessage 0 with
    | none => simp
    | some e => simp [errorNotice_eq ev chatId _ hc hz]

theorem filter_isWrite_ack (ev : CallbackEvent) :
    (Effect.respond 200 :: ackEffects ev).filter Effect.isWrite = [] := by
  rw [List.filter_eq_nil_iff]
  intro e he
  simp [(ack_quiet ev e he).2.2]

/-- C5, as stated, fails: the roster holds one row, `Jane Doe`, the event
carries chat id 7 and the payload `contact_Bob`, and the Messaging Gateway
rejects chat messages.  The handler returns `success=false`, but its error is
the rejection of the chat message, not "contact not found". -/
theorem unknown_contact_counterexample :
    (∀ row ∈ [["Jane Doe".toList, "Friend".toList, "2026-10-05".toList, "14".toList]],
      trimmedCell row 0 ≠ some (contactNameOf "contact_Bob".toList)) ∧
    (handle
      { answerCallbackQuery := none,
        sendMessage := fun _ => some "Request failed with status code 403".toList,
        getValues := Except.ok
          (some [["Jane Doe".toList, "Friend".toList, "2026-10-05".toList, "14".toList]]),
        putValue := none, today := "2026-11-04".toList }
      { data := some "contact_Bob".toList, fromId := some 7, id := some "cb1".toList }).1 =
    Except.ok
      { processed := false, success := false, message := none, action := none,
        contactName := none, rowUpdated := none, dateSet := none, callbackId := none,
        error := some "Request failed with status code 403".toList } ∧
    "Request failed with status code 403".toList ≠ notFoundMessage "Bob".toList := by
  refine ⟨by decide, by rfl, by decide⟩

/-- C5, amended: for every event that carries a chat id (present and not
zero) and a payload, other than `contact_none`, whose decoded name equals the
trimmed name of no row of
the roster the Contact Store returns, the handler does not throw and returns
`processed=false, success=false`; it issues the transport ack, the control
ack if any, the store read, the "not found" chat message and one more chat
message that carries the returned error, and no store write.  When the "not
found" chat message is accepted the returned error is `Contact "<name>" not
found`; when it is rejected the returned error is that rejection. -/
theorem unknown_contact (env : HandlerEnv) (ev : CallbackEvent) (data : JsString)
    (chatId : Int) (rows : List Row)
    (hd : ev.data = some data) (hne : data ≠ []) (hns : data ≠ contactNone)
    (hc : ev.fromId = some chatId) (hz : chatId ≠ 0)
    (hread : env.getValues = Except.ok (some rows))
    (hno : ∀ row ∈ rows, trimmedCell row 0 ≠ some (contactNameOf data)) :
    ∃ r msg, (handle env ev).1 = Except.ok r ∧ r.processed = false ∧ r.success = false ∧
      r.error = some msg ∧
      (env.sendMessage 0 = none → msg = notFoundMessage (contactNameOf data)) ∧
      (∀ e, env.sendMessage 0 = some e → msg = e) ∧
      (handle env ev).2 = Effect.respond 200 :: ackEffects ev ++
        [readRequest, notFoundNotice chatId (contactNameOf data), errorNoticeTo chatId msg] ∧
      ∀ e ∈ (handle env ev).2, e.isWrite = false := by
  rw [handle_notFound env ev data chatId rows hd hne hns hc hz hread hno]
  refine ⟨_, _, rfl, rfl, rfl, rfl, ?_, ?_, rfl, ?_⟩
  · intro h
    rw [h]
  · intro e h
    rw [h]
  · intro e he
    simp only [List.cons_append, List.mem_cons, List.mem_append, List.not_mem_nil,
      or_false] at he
    rcases he with he | he | he | he | he
    · subst he; rfl
    · exact (ack_quiet ev e (List.mem_cons_of_mem _ he)).2.2
    · subst he; rfl
    · subst he; rfl
    · subst he; rfl

/-- C5, amended, at a roster that holds `Jane Doe` and the payload
`contact_Bob`, with a Messaging Gateway that accepts every message. -/
theorem unknown_contact_witness :
    ∃ r msg, (handle
        { answerCallbackQuery := none, sendMessage := fun _ => none,
          getValues := Except.ok
            (some [["Jane Doe".toList, "Friend".toList, "2026-10-05".toList, "14".toList]]),
          putValue := none, today := "2026-11-04".toList }
        { data := some "contact_Bob".toList, fromId := some 7, id := none }).1 = Except.ok r ∧
      r.processed = false ∧ r.success = false ∧ r.error = some msg ∧
      msg = notFoundMessage "Bob".toList := by
  obtain ⟨r, msg, h1, h2, h3, h4, h5, _⟩ :=
    unknown_contact
      { answerCallbackQuery := none, sendMessage := fun _ => none,
        getValues := Except.ok
          (some [["Jane Doe".toList, "Friend".toList, "2026-10-05".toList, "14".toList]]),
        putValue := none, today := "2026-11-04".toList }
      { data := some "contact_Bob".toList, fromId := some 7, id := none }
      "contact_Bob".toList 7
      [["Jane Doe".toList, "Friend".toList, "2026-10-05".toList, "14".toList]]
      rfl (by decide) (by decide) rfl (by decide) rfl (by decide)
  exact ⟨r, msg, h1, h2, h3, h4, h5 rfl⟩

/-- C10: for every event that reaches the roster scan (it carries a chat id
and a payload other than `contact_none`) and every roster the Contact Store
returns in which some row's trimmed name equals the decoded name, with `i` the
least 0-based index of such a row, whatever the store and the gateway answer
afterwards, the handler issues exactly one store write, to the last-contact cell of
sheet row `i + 2`, carrying today's date; and when the write and the
confirmation chat message are accepted, the returned result has
`processed=true, success=true`, `contactName` equal to the decoded name,
`rowUpdated = i + 2` and `dateSet` equal to today's date. -/
theorem first_match_updated (env : HandlerEnv) (ev : CallbackEvent) (data : JsString)
    (chatId : Int) (rows : List Row) (i : Nat) (row : Row)
    (hd : ev.data = some data) (hne : data ≠ []) (hns : data ≠ contactNone)
    (hc : ev.fromId = some chatId) (hz : chatId ≠ 0)
    (hread : env.getValues = Except.ok (some rows))
    (hi : rows.get? i = some row) (hrow : trimmedCell row 0 = some (contactNameOf data))
    (hleast : ∀ j r, j < i → rows.get? j = some r →
      trimmedCell r 0 ≠ some (contactNameOf data)) :
    (handle env ev).2.filter Effect.isWrite = [Effect.putLastContact (i + 2) env.today] ∧
    (env.putValue = none → env.sendMessage 0 = none →
      ∃ r, (handle env ev).1 = Except.ok r ∧ r.processed = true ∧ r.success = true ∧
        r.contactName = some (contactNameOf data) ∧ r.rowUpdated = some (i + 2) ∧
        r.dateSet = some env.today ∧ r.callbackId = ev.id) := by
  have hfind : findRow (contactNameOf data) rows 0 = some (i + 2) := by
    simpa using findRow_first (contactNameOf data) rows i 0 row hi hrow hleast
  have heval := handle_found env ev data chatId rows (i + 2) hd hne hns hc hz hread hfind
  have hack := filter_isWrite_ack ev
  constructor
  · rw [heval]
    cases env.putValue with
    | some e =>
      simp only []
      rw [List.filter_append, hack]
      rfl
    | none =>
      cases env.sendMessage 0 with
      | none =>
        simp only []
        rw [List.filter_append, hack]
        rfl
      | some e =>
        simp only []
        rw [List.filter_append, hack]
        rfl
  · intro hp hs
    rw [heval, hp, hs]
    exact ⟨_, rfl, rfl, rfl, rfl, rfl, rfl, rfl⟩

/-- C10 at a roster whose second and third rows are both named `Jane Doe`:
the write goes to sheet row 3. -/
theorem first_match_updated_witness :
    (handle
      { answerCallbackQuery := none, sendMessage := fun _ => none,
        getValues := Except.ok
          (some [["Ann".toList, "Friend".toList, "2026-10-01".toList, "30".toList],
            [" Jane Doe ".toList, "Friend".toList, "2026-10-05".toList, "14".toList],
            ["Jane Doe".toList, "Family".toList, "2026-09-01".toList, "7".toList]]),
        putValue := none, today := "2026-11-04".toList }
      { data := some "contact_Jane_Doe".toList, fromId := some 7,
        id := some "cb1".toList }).2.filter Effect.isWrite =
    [Effect.putLastContact (1 + 2) "2026-11-04".toList] :=
  (first_match_updated
    { answerCallbackQuery := none, sendMessage := fun _ => none,
      getValues := Except.ok
        (some [["Ann".toList, "Friend".toList, "2026-10-01".toList, "30".toList],
          [" Jane Doe ".toList, "Friend".toList, "2026-10-05".toList, "14".toList],
          ["Jane Doe".toList, "Family".toList, "2026-09-01".toList, "7".toList]]),
      putValue := none, today := "2026-11-04".toList }
    { data := some "contact_Jane_Doe".toList, fromId := some 7, id := some "cb1".toList }
    "contact_Jane_Doe".toList 7
    [["Ann".toList, "Friend".toList, "2026-10-01".toList, "30".toList],
      [" Jane Doe ".toList, "Friend".toList, "2026-10-05".toList, "14".toList],
      ["Jane Doe".toList, "Family".toList, "2026-09-01".toList, "7".toList]]
    1 [" Jane Doe ".toList, "Friend".toList, "2026-10-05".toList, "14".toList]
    rfl (by decide) (by decide) rfl (by decide) rfl rfl (by decide)
    (by
      intro j r hj hr
      have hj0 : j = 0 := by omega
      subst hj0
      have hr0 : r = ["Ann".toList, "Friend".toList, "2026-10-01".toList, "30".toList] := by
        simpa using hr.symm
      subst hr0
      decide)).1

/-- C9, as stated, fails: the row of `Jane Doe` holds the last-contact date
2099-01-01, the run's date is 2026-11-04, and the handler writes 2026-11-04
into the last-contact cell of that row (sheet row 2): the date moves
backward. -/
theorem last_contact_backward_counterexample :
    Effect.putLastContact 2 "2026-11-04".toList ∈
      (handle
        { answerCallbackQuery := none, sendMessage := fun _ => none,
          getValues := Except.ok
            (some [["Jane Doe".toList, "Friend".toList, "2099-01-01".toList, "14".toList]]),
          putValue := none, today := "2026-11-04".toList }
        { data := some "contact_Jane_Doe".toList, fromId := some 7,
          id := some "cb1".toList }).2 ∧
    isoDateMs "2026-11-04".toList = some 1793750400000 ∧
    isoDateMs "2099-01-01".toList = some 4070908800000 ∧
    (1793750400000 : Int) < 4070908800000 := by
  refine ⟨?_, by decide, by decide, by decide⟩
  have h : (handle
        { answerCallbackQuery := none, sendMessage := fun _ => none,
          getValues := Except.ok
            (some [["Jane Doe".toList, "Friend".toList, "2099-01-01".toList, "14".toList]]),
          putValue := none, today := "2026-11-04".toList }
        { data := some "contact_Jane_Doe".toList, fromId := some 7,
          id := some "cb1".toList }).2 =
      [Effect.respond 200,
        Effect.answerCallbackQuery "cb1".toList "Processing...".toList,
        readRequest,
        Effect.putLastContact 2 "2026-11-04".toList,
        updatedNotice 7 "Jane Doe".toList] := by rfl
  rw [h]
  simp

/-- C9, amended: for every Contact Store state and every event, when the
handler writes a row's last-contact date, the date written is the run's
current date `today`, whatever date the row held before; the handler does not
compare the two, so the date moves backward exactly when the row held a date
later than `today`. -/
theorem write_carries_today (env : HandlerEnv) (ev : CallbackEvent) (row : Nat)
    (d : JsString) (h : Effect.putLastContact row d ∈ (handle env ev).2) :
    d = env.today := by
  obtain ⟨rest, htr, q⟩ := handle_trace env ev
  rw [htr] at h
  rcases List.mem_cons.mp h with h0 | h1
  · exact absurd h0 (by simp)
  · exact (q _ h1).2 row d rfl

/-- C9, amended, at the run that updates `Jane Doe` on 2026-11-04: the write
to sheet row 2 is issued and carries the date of the run, though the row held
2099-01-01. -/
theorem write_carries_today_witness :
    Effect.putLastContact 2 "2026-11-04".toList ∈
      (handle
        { answerCallbackQuery := none, sendMessage := fun _ => none,
          getValues := Except.ok
            (some [["Jane Doe".toList, "Friend".toList, "2099-01-01".toList, "14".toList]]),
          putValue := none, today := "2026-11-04".toList }
        { data := some "contact_Jane_Doe".toList, fromId := some 7,
          id := some "cb1".toList }).2 ∧
    "2026-11-04".toList =
      ({ answerCallbackQuery := none, sendMessage := fun _ => none,
         getValues := Except.ok
           (some [["Jane Doe".toList, "Friend".toList, "2099-01-01".toList, "14".toList]]),
         putValue := none, today := "2026-11-04".toList } : HandlerEnv).today := by
  have hmem : Effect.putLastContact 2 "2026-11-04".toList ∈
      (handle
        { answerCallbackQuery := none, sendMessage := fun _ => none,
          getValues := Except.ok
            (some [["Jane Doe".toList, "Friend".toList, "2099-01-01".toList, "14".toList]]),
          putValue := none, today := "2026-11-04".toList }
        { data := some "contact_Jane_Doe".toList, fromId := some 7,
          id := some "cb1".toList }).2 := by
    have h : (handle
          { answerCallbackQuery := none, sendMessage := fun _ => none,
            getValues := Except.ok
              (some [["Jane Doe".toList, "Friend".toList, "2099-01-01".toList, "14".toList]]),
            putValue := none, today := "2026-11-04".toList }
          { data := some "contact_Jane_Doe".toList, fromId := some 7,
            id := some "cb1".toList }).2 =
        [Effect.respond 200,
          Effect.answerCallbackQuery "cb1".toList "Processing...".toList,
          readRequest,
          Effect.putLastContact 2 "2026-11-04".toList,
          updatedNotice 7 "Jane Doe".toList] := by rfl
    rw [h]
    simp
  exact ⟨hmem, write_carries_today _ _ 2 "2026-11-04".toList hmem⟩

/-! ## Callback Handler: no error escapes -/

theorem valid_event (ev : CallbackEvent)
    (h : ¬ (truthyString ev.data = false ∨ truthyNumber ev.fromId = false)) :
    ∃ data chatId, ev.data = some data ∧ data ≠ [] ∧ ev.fromId = some chatId ∧ chatId ≠ 0 := by
  obtain ⟨data, fromId, id⟩ := ev
  rcases data with _ | _ | ⟨d, ds⟩
  · simp [truthyString] at h
  · simp [truthyString] at h
  · cases fromId with
    | none => simp [truthyNumber] at h
    | some chatId =>
      refine ⟨d :: ds, chatId, rfl, by simp, rfl, ?_⟩
      intro hz
      simp [truthyString, truthyNumber, hz] at h

theorem handle_readError (env : HandlerEnv) (ev : CallbackEvent) (data : JsString)
    (chatId : Int) (e : JsString)
    (hd : ev.data = some data) (hne : data ≠ []) (hns : data ≠ contactNone)
    (hc : ev.fromId = some chatId) (hz : chatId ≠ 0)
    (hread : env.getValues = Except.error e) :
    (handle env ev).1 = Except.ok (failedResult e) := by
  rw [handle_eval, processClick_update env ev _ data chatId hd hne hns hc hz,
    updateContact_readError env data chatId ev.id _ e hread]

theorem handle_noValues (env : HandlerEnv) (ev : CallbackEvent) (data : JsString)
    (chatId : Int)
    (hd : ev.data = some data) (hne : data ≠ []) (hns : data ≠ contactNone)
    (hc : ev.fromId = some chatId) (hz : chatId ≠ 0)
    (hread : env.getValues = Except.ok none) :
    (handle env ev).1 = Except.ok (failedResult noValuesMessage) := by
  rw [handle_eval, processClick_update env ev _ data chatId hd hne hns hc hz,
    updateContact_noValues env data chatId ev.id _ hread]

theorem no_failure_ack (env : HandlerEnv) (ev : CallbackEvent) (extra : List Effect)
    (hread : readRequest ∈ extra → ∀ e, env.getValues ≠ Except.error e)
    (hwrite : (∃ row d, Effect.putLastContact row d ∈ extra) → env.putValue = none)
    (hsend : ∀ k, k < extra.countP Effect.isSend → env.sendMessage k = none) :
    ¬ BusinessFailure env (Effect.respond 200 :: ackEffects ev ++ extra) := by
  have hq := ack_quiet ev
  rintro (⟨hmem, e, he⟩ | ⟨⟨row, d, hmem⟩, hp⟩ | ⟨k, hk, hs⟩)
  · rcases List.mem_append.mp hmem with h | h
    · have := (hq _ h).2.1
      simp [readRequest, Effect.isRead] at this
    · exact hread h e he
  · rcases List.mem_append.mp hmem with h | h
    · have := (hq _ h).2.2
      simp [Effect.isWrite] at this
    · exact hp (hwrite ⟨row, d, h⟩)
  · rw [List.countP_append, countP_isSend_ack, Nat.zero_add] at hk
    exact hs (hsend k hk)

theorem handle_success (env : HandlerEnv) (ev : CallbackEvent) (r : HandlerResult)
    (h : (handle env ev).1 = Except.ok r) (hs : r.success = true) :
    ¬ BusinessFailure env (handle env ev).2 := by
  by_cases hv : truthyString ev.data = false ∨ truthyNumber ev.fromId = false
  · have heval : handle env ev =
        (Except.ok ignoredResult, Effect.respond 200 :: ackEffects ev ++ []) := by
      rw [handle_eval, processClick_ignored env ev _ hv, List.append_nil]
    rw [heval]
    exact no_failure_ack env ev [] (by simp) (by simp) (by simp)
  · obtain ⟨data, chatId, hd, hne, hc, hz⟩ := valid_event ev hv
    by_cases hns : data = contactNone
    · subst hns
      have heval := handle_none env ev chatId hd hc hz
      cases hsend : env.sendMessage 0 with
      | some e =>
        rw [heval, hsend] at h
        injection h with h
        subst h
        exact absurd hs (by simp [failedResult])
      | none =>
        rw [heval, hsend]
        refine no_failure_ack env ev [noneNotice chatId] (by simp [readRequest, noneNotice])
          (by simp [noneNotice]) ?_
        intro k hk
        have hk0 : k = 0 := by
          simp [noneNotice, Effect.isSend] at hk
          exact hk
        rw [hk0, hsend]
    · cases hread : env.getValues with
      | error e =>
        rw [handle_readError env ev data chatId e hd hne hns hc hz hread] at h
        injection h with h
        subst h
        exact absurd hs (by simp [failedResult])
      | ok values =>
        cases values with
        | none =>
          rw [handle_noValues env ev data chatId hd hne hns hc hz hread] at h
          injection h with h
          subst h
          exact absurd hs (by simp [failedResult])
        | some rows =>
          cases hfind : findRow (contactNameOf data) rows 0 with
          | none =>
            rw [handle_eval, processClick_update env ev _ data chatId hd hne hns hc hz,
              updateContact_notFound env data chatId ev.id _ rows hread hfind] at h
            injection h with h
            subst h
            exact absurd hs (by simp [failedResult])
          | some rowToUpdate =>
            have heval :=
              handle_found env ev data chatId rows rowToUpdate hd hne hns hc hz hread hfind
            cases hput : env.putValue with
            | some e =>
              rw [heval, hput] at h
              injection h with h
              subst h
              exact absurd hs (by simp [failedResult])
            | none =>
              cases hsend : env.sendMessage 0 with
              | some e =>
                rw [heval, hput, hsend] at h
                injection h with h
                subst h
                exact absurd hs (by simp [failedResult])
              | none =>
                rw [heval, hput, hsend]
                refine no_failure_ack env ev _ (fun _ e he => ?_) (fun _ => hput) ?_
                · rw [hread] at he
                  cases he
                · intro k hk
                  have hk0 : k = 0 := by
                    simp [readRequest, updatedNotice, Effect.isSend] at hk
                    exact hk
                  rw [hk0, hsend]

/-- C3: for every event and every answer of the Messaging Gateway and of the
Contact Store, the handler's run, whose first request is the transport ack,
returns a result and does not throw.  Whenever the body of its `try` block
throws, the returned result is `processed=false, success=false` with the
thrown message as error, whether or not the error chat message can be sent;
and whenever a store read, a store write or a chat message issued by the run
is rejected, the returned result has `success=false`. -/
theorem run_never_throws (env : HandlerEnv) (ev : CallbackEvent) :
    ∃ r, (handle env ev).1 = Except.ok r ∧
      (∀ msg, (mainBody env ev [Effect.respond 200]).1 = Except.error msg →
        r.processed = false ∧ r.success = false ∧ r.error = some msg) ∧
      (BusinessFailure env (handle env ev).2 → r.success = false) := by
  have hret : ∃ r, (handle env ev).1 = Except.ok r ∧
      (∀ msg, (mainBody env ev [Effect.respond 200]).1 = Except.error msg →
        r.processed = false ∧ r.success = false ∧ r.error = some msg) := by
    rw [handle_eq]
    unfold Proc.tryCatch
    rcases hb : mainBody env ev [Effect.respond 200] with ⟨res, tr⟩
    cases res with
    | ok a =>
      refine ⟨a, rfl, ?_⟩
      intro msg hmsg
      simp at hmsg
    | error e =>
      refine ⟨failedResult e, by simp [onError_apply], ?_⟩
      intro msg hmsg
      have : e = msg := by simpa using hmsg
      subst this
      exact ⟨rfl, rfl, rfl⟩
  obtain ⟨r, hr, hthrow⟩ := hret
  refine ⟨r, hr, hthrow, ?_⟩
  intro hfail
  by_contra hne
  have hs : r.success = true := by simpa using hne
  exact handle_success env ev r hr hs hfail

end CheckinBot
